import Mathlib

/-!
Verification of the health-check endpoint (`src/app/api/health/route.ts`).

The handler is:

  export async function GET() {
    try {
      await db.$queryRaw`SELECT 1`
      return NextResponse.json({ status: 'healthy',
        timestamp: new Date().toISOString(),
        services: { database: 'connected', api: 'operational' } })
    } catch (error) {
      console.error('Health check failed:', error)
      return NextResponse.json({ status: 'unhealthy',
        timestamp: new Date().toISOString(),
        error: 'Database connection failed',
        services: { database: 'disconnected', api: 'operational' } },
        { status: 503 })
    }
  }

We embed it shallowly: the database probe's outcome is an explicit input
(success, or an error carrying the thrown message), the wall clock is an
explicit input (milliseconds since the Unix epoch, as a JavaScript `Date`
time value), and the handler is a function from those inputs to an
`Except`: `Except.ok` is a returned HTTP response together with the list
of console.error log entries emitted, while `Except.error` would model an
exception escaping the handler.
-/

namespace HealthRoute

/-- Outcome of the database probe `await db.$queryRaw SELECT 1`:
either it completes, or it throws an error whose rendered message is
carried as a string. -/
inductive ProbeResult where
  | ok : ProbeResult
  | error : String → ProbeResult
deriving DecidableEq, Repr

/-- The `services` object of the JSON body. -/
structure Services where
  database : String
  api : String
deriving DecidableEq, Repr

/-- The JSON body built by the handler. `error` is `none` when the JSON
object has no `error` key (the success branch) and `some s` when it has
one with value `s` (the failure branch). -/
structure HealthBody where
  status : String
  timestamp : String
  error : Option String
  services : Services
deriving DecidableEq, Repr

/-- An HTTP response as produced by `NextResponse.json`: the transport
status code (200 when no `{ status: ... }` init is given) and the body. -/
structure HttpResponse where
  httpStatus : Nat
  body : HealthBody
deriving DecidableEq, Repr

/-- One `console.error(a, b)` call: the literal first argument and the
error value passed as second argument. -/
abbrev LogEntry := String × String

/-! ### JavaScript `Date.prototype.toISOString`

`new Date().toISOString()` renders the clock's time value (milliseconds
since the Unix epoch) as `YYYY-MM-DDTHH:mm:ss.sssZ` (for years 0..9999).
We model time values as `Nat` (the probe runs at nonnegative epoch
times) and reproduce the proleptic-Gregorian field computation of
ECMA-262 via the standard days-to-civil-date algorithm. -/

/-- Render a `Nat` in decimal, left-padded with zeros to `w` digits. -/
def padNum (w n : Nat) : String :=
  let s := toString n
  let k := s.length
  String.mk (List.replicate (w - k) '0') ++ s

/-- Convert a day count since 1970-01-01 to a Gregorian calendar date
(year, month 1..12, day 1..31), as ECMA-262's YearFromTime /
MonthFromTime / DateFromTime compute it (days-to-civil algorithm). -/
def civilFromDays (z : Nat) : Nat × Nat × Nat :=
  let era := (z + 719468) / 146097
  let doe := (z + 719468) % 146097
  let yoe := (doe - doe / 1460 + doe / 36524 - doe / 146096) / 365
  let doy := doe - (365 * yoe + yoe / 4 - yoe / 100)
  let mp := (5 * doy + 2) / 153
  let d := doy - (153 * mp + 2) / 5 + 1
  let m := if mp < 10 then mp + 3 else mp - 9
  let y := yoe + era * 400
  (if m ≤ 2 then y + 1 else y, m, d)

/-- `Date.prototype.toISOString` on a time value `t` (ms since epoch):
`YYYY-MM-DDTHH:mm:ss.sssZ`. -/
def toISOString (t : Nat) : String :=
  let c := civilFromDays (t / 86400000)
  padNum 4 c.1 ++ "-" ++ padNum 2 c.2.1 ++ "-" ++ padNum 2 c.2.2 ++ "T" ++
    padNum 2 (t / 3600000 % 24) ++ ":" ++ padNum 2 (t / 60000 % 60) ++ ":" ++
    padNum 2 (t / 1000 % 60) ++ "." ++ padNum 3 (t % 1000) ++ "Z"

/-! ### The handler -/

/-- The `try` block of the handler: run the probe; on success build the
success response (`NextResponse.json` with no init, hence status 200).
An error thrown by the probe propagates out of the block. -/
def tryBlock (probe : ProbeResult) (now : Nat) : Except String HttpResponse :=
  match probe with
  | .ok =>
      .ok { httpStatus := 200
            body := { status := "healthy"
                      timestamp := toISOString now
                      error := none
                      services := { database := "connected", api := "operational" } } }
  | .error msg => .error msg

/-- The whole `GET` handler: the `try` block wrapped in the `catch`
clause, which logs `console.error('Health check failed:', error)` and
returns the 503 failure response. The result pairs the response with the
emitted log entries; an `Except.error` result would mean an exception
escaped the handler (the `catch` clause never rethrows, so none does). -/
def GETm (probe : ProbeResult) (now : Nat) :
    Except String (HttpResponse × List LogEntry) :=
  match tryBlock probe now with
  | .ok resp => .ok (resp, [])
  | .error e =>
      .ok ({ httpStatus := 503
             body := { status := "unhealthy"
                       timestamp := toISOString now
                       error := some "Database connection failed"
                       services := { database := "disconnected", api := "operational" } } },
           [("Health check failed:", e)])

/-- The HTTP response of an invocation, when one is produced. -/
def respOf (probe : ProbeResult) (now : Nat) : Option HttpResponse :=
  (GETm probe now).toOption.map Prod.fst

/-- The console.error log entries of an invocation, when a response is
produced. -/
def logsOf (probe : ProbeResult) (now : Nat) : Option (List LogEntry) :=
  (GETm probe now).toOption.map Prod.snd

/-- The `error` field of the response body of an invocation, when a
response is produced: `some s` when the body has an `error` key with
value `s`, `none` when it has none. -/
def errField (probe : ProbeResult) (now : Nat) : Option String :=
  match respOf probe now with
  | some r => r.body.error
  | none => none

/-- The `status` field of the response body of an invocation, when a
response is produced. -/
def bodyStatusOf (probe : ProbeResult) (now : Nat) : Option String :=
  match respOf probe now with
  | some r => some r.body.status
  | none => none

/-- The HTTP status code of an invocation, when a response is
produced. -/
def statusCodeOf (probe : ProbeResult) (now : Nat) : Option Nat :=
  match respOf probe now with
  | some r => some r.httpStatus
  | none => none

/-- The response literal of the success branch of the handler. -/
def healthyResponse (now : Nat) : HttpResponse :=
  { httpStatus := 200
    body := { status := "healthy"
              timestamp := toISOString now
              error := none
              services := { database := "connected", api := "operational" } } }

/-- The response literal of the failure branch of the handler. -/
def unhealthyResponse (now : Nat) : HttpResponse :=
  { httpStatus := 503
    body := { status := "unhealthy"
              timestamp := toISOString now
              error := some "Database connection failed"
              services := { database := "disconnected", api := "operational" } } }

/-- A response body with its timestamp blanked, for comparing responses
modulo the timestamp field. -/
def stripTimestamp (b : HealthBody) : HealthBody :=
  { b with timestamp := "" }

/-- A response with its body's timestamp blanked. -/
def stripRespTimestamp (r : HttpResponse) : HttpResponse :=
  { r with body := stripTimestamp r.body }

/-- The common shape of every success response once its timestamp is
blanked. -/
def strippedHealthy : HttpResponse :=
  { httpStatus := 200
    body := { status := "healthy"
              timestamp := ""
              error := none
              services := { database := "connected", api := "operational" } } }

/-- An inbound HTTP request: method, path, query string, headers, body.
The handler `GET()` declares no request parameter, so none of this ever
reaches it. -/
structure HttpRequest where
  method : String
  path : String
  query : String
  headers : List (String × String)
  reqBody : Option String
deriving DecidableEq, Repr

/-- Route invocation as the framework performs it: the route module's
`GET` export is called for the inbound request; since the handler
declares no parameter, the request is not passed to it. -/
def invoke (_req : HttpRequest) (probe : ProbeResult) (now : Nat) :
    Except String (HttpResponse × List LogEntry) :=
  GETm probe now

/-! ### Substring test and ISO-8601 validity -/

/-- Whether the first character list is an initial segment of the
second. -/
def leadEq : List Char → List Char → Bool
  | [], _ => true
  | _ :: _, [] => false
  | a :: as, b :: bs => a = b && leadEq as bs

/-- Whether the first character list occurs contiguously inside the
second. -/
def subList (n : List Char) : List Char → Bool
  | [] => leadEq n []
  | c :: cs => leadEq n (c :: cs) || subList n cs

/-- Whether `needle` occurs as a contiguous substring of `hay`. -/
def hasSub (needle hay : String) : Bool :=
  subList needle.toList hay.toList

/-- The fixed ISO-8601 extended combined date-time rendering
`YYYY-MM-DDTHH:mm:ss.sssZ` of explicit field values. -/
def renderISO (y m d h mi s ms : Nat) : String :=
  padNum 4 y ++ "-" ++ padNum 2 m ++ "-" ++ padNum 2 d ++ "T" ++
    padNum 2 h ++ ":" ++ padNum 2 mi ++ ":" ++ padNum 2 s ++ "." ++ padNum 3 ms ++ "Z"

/-- A string is a valid ISO-8601 combined date-time (in the fixed
millisecond-precision UTC format the endpoint emits) when it is the
rendering of in-range field values: a four-digit year, month 1..12,
day 1..31, hour below 24, minute and second below 60, milliseconds
below 1000. -/
def ValidISO8601 (str : String) : Prop :=
  ∃ y m d h mi s ms,
    y ≤ 9999 ∧ 1 ≤ m ∧ m ≤ 12 ∧ 1 ≤ d ∧ d ≤ 31 ∧
      h ≤ 23 ∧ mi ≤ 59 ∧ s ≤ 59 ∧ ms ≤ 999 ∧
      str = renderISO y m d h mi s ms

/-! ### Supporting lemmas -/

/-- The civil-date fields computed from any day count up to 9999-12-31
are in range: year at most 9999, month 1..12, day 1..31. -/
theorem civilFromDays_range (z : Nat) (hz : z ≤ 2932896) :
    (civilFromDays z).1 ≤ 9999 ∧ 1 ≤ (civilFromDays z).2.1 ∧ (civilFromDays z).2.1 ≤ 12 ∧
      1 ≤ (civilFromDays z).2.2 ∧ (civilFromDays z).2.2 ≤ 31 := by
  unfold civilFromDays
  dsimp only
  split <;> split <;> omega

/-- Every success response, stripped of its timestamp, is the same
fixed value. -/
theorem respOf_ok_strip (t : Nat) :
    (respOf .ok t).map stripRespTimestamp = some strippedHealthy := rfl

/-- A success invocation emits no console.error output. -/
theorem logsOf_ok (t : Nat) : logsOf .ok t = some ([] : List LogEntry) := rfl

/-- `toISOString` is the ISO rendering of the computed calendar and
clock fields. -/
theorem toISOString_eq_renderISO (t : Nat) :
    toISOString t =
      renderISO (civilFromDays (t / 86400000)).1 (civilFromDays (t / 86400000)).2.1
        (civilFromDays (t / 86400000)).2.2 (t / 3600000 % 24) (t / 60000 % 60)
        (t / 1000 % 60) (t % 1000) := rfl

/-- For any epoch-millisecond value before the year 10000, the string
`toISOString` produces is a valid ISO-8601 date-time. -/
theorem toISOString_valid (t : Nat) (ht : t < 253402300800000) :
    ValidISO8601 (toISOString t) := by
  have hz : t / 86400000 ≤ 2932896 := by omega
  obtain ⟨hy, hm1, hm2, hd1, hd2⟩ := civilFromDays_range (t / 86400000) hz
  exact ⟨(civilFromDays (t / 86400000)).1, (civilFromDays (t / 86400000)).2.1,
    (civilFromDays (t / 86400000)).2.2, t / 3600000 % 24, t / 60000 % 60,
    t / 1000 % 60, t % 1000,
    hy, hm1, hm2, hd1, hd2, by omega, by omega, by omega, by omega,
    toISOString_eq_renderISO t⟩

/-! ### Claims -/

/-- Claim C1: when the database probe completes without error, the
handler returns HTTP status 200 with a body whose status is "healthy",
services.database is "connected" and services.api is "operational". -/
theorem claim_C1_success_path (t : Nat) :
    GETm .ok t = Except.ok (healthyResponse t, []) ∧
    (healthyResponse t).httpStatus = 200 ∧
    (healthyResponse t).body.status = "healthy" ∧
    (healthyResponse t).body.services.database = "connected" ∧
    (healthyResponse t).body.services.api = "operational" :=
  ⟨rfl, rfl, rfl, rfl, rfl⟩

/-- Claim C2: when the database probe raises any error, the handler
catches it, logs the underlying cause, and returns HTTP status 503 with
a body whose status is "unhealthy", services.database is "disconnected",
services.api is "operational", and whose error field is the fixed
generic message. -/
theorem claim_C2_failure_path (msg : String) (t : Nat) :
    GETm (.error msg) t = Except.ok (unhealthyResponse t, [("Health check failed:", msg)]) ∧
    (unhealthyResponse t).httpStatus = 503 ∧
    (unhealthyResponse t).body.status = "unhealthy" ∧
    (unhealthyResponse t).body.services.database = "disconnected" ∧
    (unhealthyResponse t).body.services.api = "operational" ∧
    (unhealthyResponse t).body.error = some "Database connection failed" :=
  ⟨rfl, rfl, rfl, rfl, rfl, rfl⟩

/-- Claim C3: the body's status is "healthy" exactly when the database
probe succeeded; any probe failure forces the unhealthy body with HTTP
status 503; and every invocation produces one of exactly two responses,
the healthy one (status 200) or the unhealthy one (status 503). -/
theorem claim_C3_status_iff (p : ProbeResult) (t : Nat) :
    (respOf p t = some (healthyResponse t) ∨ respOf p t = some (unhealthyResponse t)) ∧
    (respOf p t = some (healthyResponse t) ↔ p = .ok) ∧
    (bodyStatusOf p t = some "healthy" ↔ p = .ok) ∧
    (statusCodeOf p t = some 200 ↔ p = .ok) ∧
    (statusCodeOf p t = some 503 ↔ p ≠ .ok) := by
  cases p with
  | ok =>
      have hne : ¬ statusCodeOf .ok t = some 503 := by
        intro h
        have h2 : (200 : Nat) = 503 := Option.some.inj h
        exact absurd h2 (by decide)
      exact ⟨Or.inl rfl, ⟨fun _ => rfl, fun _ => rfl⟩, ⟨fun _ => rfl, fun _ => rfl⟩,
        ⟨fun _ => rfl, fun _ => rfl⟩, ⟨fun h => absurd h hne, fun h => absurd rfl h⟩⟩
  | error m =>
      have hne : (ProbeResult.error m) ≠ .ok := fun h => nomatch h
      have f1 : ¬ respOf (.error m) t = some (healthyResponse t) := by
        intro h
        have h2 : (503 : Nat) = 200 := congrArg HttpResponse.httpStatus (Option.some.inj h)
        exact absurd h2 (by decide)
      have f2 : ¬ bodyStatusOf (.error m) t = some "healthy" := by
        intro h
        have h2 : "unhealthy" = "healthy" := Option.some.inj h
        exact absurd h2 (by decide)
      have f3 : ¬ statusCodeOf (.error m) t = some 200 := by
        intro h
        have h2 : (503 : Nat) = 200 := Option.some.inj h
        exact absurd h2 (by decide)
      exact ⟨Or.inr rfl, ⟨fun h => absurd h f1, fun h => nomatch h⟩,
        ⟨fun h => absurd h f2, fun h => nomatch h⟩,
        ⟨fun h => absurd h f3, fun h => nomatch h⟩,
        ⟨fun _ => hne, fun _ => rfl⟩⟩

/-- Witness for claim C3 at a concrete failing probe and clock value. -/
theorem claim_C3_status_iff_witness :
    (respOf (.error "boom") 0 = some (healthyResponse 0) ∨
        respOf (.error "boom") 0 = some (unhealthyResponse 0)) ∧
    (respOf (.error "boom") 0 = some (healthyResponse 0) ↔ ProbeResult.error "boom" = .ok) ∧
    (bodyStatusOf (.error "boom") 0 = some "healthy" ↔ ProbeResult.error "boom" = .ok) ∧
    (statusCodeOf (.error "boom") 0 = some 200 ↔ ProbeResult.error "boom" = .ok) ∧
    (statusCodeOf (.error "boom") 0 = some 503 ↔ ProbeResult.error "boom" ≠ .ok) :=
  claim_C3_status_iff (.error "boom") 0

/-- Claim C4, counterexample: the probe errors "Database" and
"connection refused" are two different errors, the two failure responses
are identical, yet the fixed error string "Database connection failed"
does contain the raw message "Database", so the claim's non-containment
clause is false as stated (for arbitrary error messages). -/
theorem claim_C4_counterexample :
    ProbeResult.error "Database" ≠ ProbeResult.error "connection refused" ∧
    respOf (.error "Database") 0 = respOf (.error "connection refused") 0 ∧
    errField (.error "Database") 0 = some "Database connection failed" ∧
    hasSub "Database" "Database connection failed" = true :=
  ⟨by decide, rfl, rfl, by decide⟩

/-- Claim C4, amended: for any two invocations whose probes raise two
different errors (same clock value) the failure responses are identical,
with a non-empty fixed error string independent of the raised errors;
the error field does not contain the raw underlying exception message
whenever that message is not a substring of the fixed string
"Database connection failed". -/
theorem claim_C4_no_leak (m₁ m₂ : String) (t : Nat) :
    respOf (.error m₁) t = respOf (.error m₂) t ∧
    errField (.error m₁) t = some "Database connection failed" ∧
    errField (.error m₂) t = some "Database connection failed" ∧
    "Database connection failed" ≠ "" ∧
    (hasSub m₁ "Database connection failed" = false →
      (errField (.error m₁) t).all (fun e => !hasSub m₁ e) = true) ∧
    (hasSub m₂ "Database connection failed" = false →
      (errField (.error m₂) t).all (fun e => !hasSub m₂ e) = true) := by
  refine ⟨rfl, rfl, rfl, by decide, ?_, ?_⟩ <;> intro h <;>
    simp [errField, respOf, GETm, tryBlock, Except.toOption, Option.all, h]

/-- Witness for the amended claim C4 at two concrete distinct probe
errors, with the non-containment conditions discharged there. -/
theorem claim_C4_no_leak_witness :
    respOf (.error "ECONNREFUSED") 0 = respOf (.error "query timeout") 0 ∧
    errField (.error "ECONNREFUSED") 0 = some "Database connection failed" ∧
    errField (.error "query timeout") 0 = some "Database connection failed" ∧
    "Database connection failed" ≠ "" ∧
    (errField (.error "ECONNREFUSED") 0).all (fun e => !hasSub "ECONNREFUSED" e) = true ∧
    (errField (.error "query timeout") 0).all (fun e => !hasSub "query timeout" e) = true :=
  ⟨(claim_C4_no_leak "ECONNREFUSED" "query timeout" 0).1,
   (claim_C4_no_leak "ECONNREFUSED" "query timeout" 0).2.1,
   (claim_C4_no_leak "ECONNREFUSED" "query timeout" 0).2.2.1,
   (claim_C4_no_leak "ECONNREFUSED" "query timeout" 0).2.2.2.1,
   (claim_C4_no_leak "ECONNREFUSED" "query timeout" 0).2.2.2.2.1 (by decide),
   (claim_C4_no_leak "ECONNREFUSED" "query timeout" 0).2.2.2.2.2 (by decide)⟩

/-- Claim C5: the handler never lets an exception escape: for every
probe outcome it produces a response (the try/catch result is `ok`). -/
theorem claim_C5_no_throw (p : ProbeResult) (t : Nat) :
    (GETm p t).isOk = true := by
  cases p <;> rfl

/-- Claim C6: whatever the probe outcome, the response body says
services.api = "operational". -/
theorem claim_C6_api_operational (p : ProbeResult) (t : Nat) :
    (respOf p t).map (fun r => r.body.services.api) = some "operational" := by
  cases p <;> rfl

/-- Claim C7: the error field is absent from the body exactly when the
probe succeeded, and present (with the fixed message) whenever it
failed. -/
theorem claim_C7_error_presence (m : String) (t : Nat) :
    errField .ok t = none ∧ errField (.error m) t = some "Database connection failed" :=
  ⟨rfl, rfl⟩

/-- Claim C8: invoking the handler once per clock reading in any list,
each time with a succeeding probe, yields responses that are all
structurally identical once the timestamp is blanked, with no log
output; any two success responses agree modulo timestamp. -/
theorem claim_C8_idempotent (ts : List Nat) :
    ts.map (fun t => (respOf .ok t).map stripRespTimestamp) =
      ts.map (fun _ => some strippedHealthy) ∧
    ts.map (fun t => logsOf .ok t) = ts.map (fun _ => some ([] : List LogEntry)) ∧
    (∀ t₁ t₂ : Nat,
      (respOf .ok t₁).map stripRespTimestamp = (respOf .ok t₂).map stripRespTimestamp) := by
  refine ⟨?_, ?_, fun t₁ t₂ => (respOf_ok_strip t₁).trans (respOf_ok_strip t₂).symm⟩
  · induction ts with
    | nil => rfl
    | cons a l ih => simp only [List.map_cons, respOf_ok_strip, ih]
  · induction ts with
    | nil => rfl
    | cons a l ih => simp only [List.map_cons, logsOf_ok, ih]

/-- Claim C9: in both branches the body's timestamp equals the ISO-8601
rendering of the clock value read when the response is built, and (for
any clock value before the year 10000) that string is a valid ISO-8601
date-time. -/
theorem claim_C9_timestamp (p : ProbeResult) (t : Nat) (ht : t < 253402300800000) :
    (respOf p t).map (fun r => r.body.timestamp) = some (toISOString t) ∧
    ValidISO8601 (toISOString t) := by
  refine ⟨?_, toISOString_valid t ht⟩
  cases p <;> rfl

/-- Witness for claim C9 at the epoch instant with a succeeding probe. -/
theorem claim_C9_timestamp_witness :
    (0 : Nat) < 253402300800000 ∧
    ((respOf .ok 0).map (fun r => r.body.timestamp) = some (toISOString 0) ∧
      ValidISO8601 (toISOString 0)) :=
  ⟨by decide, claim_C9_timestamp .ok 0 (by decide)⟩

/-- Claim C10: the handler takes no request argument, so for any two
inbound requests, the same probe outcome and clock value produce
identical results. -/
theorem claim_C10_request_independent (r₁ r₂ : HttpRequest) (p : ProbeResult) (t : Nat) :
    invoke r₁ p t = invoke r₂ p t := rfl

end HealthRoute
